import Mathlib

/-!
Shallow embedding of two parts of the rust-libp2p sources:

* the `Protocol` new-type and the protocol-name filtering of
  `core/src/upgrade.rs`;
* the WebRTC stream-muxer adapter `Connection` of
  `transports/webrtc/src/connection.rs`.

Pure validation code is translated to Lean functions; the poll-based muxer
methods are translated to explicit state-passing functions over the
`ConnectionInner` state, with the outcome of polling a stored `BoxFuture`
supplied as an explicit environment parameter.
-/

/-- Modelled from the spec: the error type of the multistream-select crate
(`multistream_select::ProtocolError`), which is not among the embedded
sources; `InvalidProtocol` is its failure mode for malformed names. -/
inductive multistream_select.ProtocolError where
  | InvalidProtocol
  deriving DecidableEq, Repr

/-- Modelled from the spec: a multistream-select protocol name (the
multistream-select crate is not among the embedded sources). Per the spec it
is a UTF-8 string that begins with a forward slash and is at most 140 bytes
long. -/
structure multistream_select.Protocol where
  name : String
  deriving DecidableEq, Repr

/-- Maximum byte length of a protocol name (spec: at most 140 bytes). -/
def MAX_PROTOCOL_LEN : Nat := 140

/-- Modelled from the spec: `multistream_select::Protocol::try_from_owned`
succeeds iff the string starts with a forward slash and its UTF-8 byte
length is at most 140. -/
def multistream_select.Protocol.try_from_owned (protocol : String) :
    Except multistream_select.ProtocolError multistream_select.Protocol :=
  if protocol.data.head? = some '/' ∧ protocol.utf8ByteSize ≤ MAX_PROTOCOL_LEN then
    Except.ok { name := protocol }
  else
    Except.error multistream_select.ProtocolError.InvalidProtocol

/-- A raw protocol name as produced by the legacy `ProtocolName` trait: an
arbitrary byte slice, which either is valid UTF-8 (carried as the string it
decodes to) or is not. -/
inductive RawName where
  | utf8 (s : String)
  | nonUtf8
  deriving DecidableEq, Repr

/-- Modelled from the spec: `multistream_select::Protocol::try_from` on a
byte slice; it fails on names that are not valid UTF-8, do not start with a
forward slash, or exceed 140 bytes. -/
def multistream_select.Protocol.try_from :
    RawName → Except multistream_select.ProtocolError multistream_select.Protocol
  | RawName.utf8 s => multistream_select.Protocol.try_from_owned s
  | RawName.nonUtf8 => Except.error multistream_select.ProtocolError.InvalidProtocol

/-- The `Protocol` new-type of `core/src/upgrade.rs` (lines 157-160),
wrapping a multistream-select protocol name. -/
structure Protocol where
  inner : multistream_select.Protocol
  deriving DecidableEq, Repr

/-- `InvalidProtocol` of `core/src/upgrade.rs` (line 212), wrapping the
multistream-select error. -/
structure InvalidProtocol where
  err : multistream_select.ProtocolError
  deriving DecidableEq, Repr

/-- `Protocol::try_from_owned` of `core/src/upgrade.rs` (lines 178-183). -/
def Protocol.try_from_owned (protocol : String) : Except InvalidProtocol Protocol :=
  match multistream_select.Protocol.try_from_owned protocol with
  | Except.ok inner => Except.ok { inner := inner }
  | Except.error e => Except.error { err := e }

/-- `Protocol::from_inner` of `core/src/upgrade.rs` (lines 190-192). -/
def Protocol.from_inner (inner : multistream_select.Protocol) : Protocol :=
  { inner := inner }

/-- `filter_non_utf8_protocols` of `core/src/upgrade.rs` (lines 249-264):
a name accepted by `multistream_select::Protocol::try_from` is kept, a
malformed name yields `none` after a `log::warn!` diagnostic. -/
def filter_non_utf8_protocols (p : RawName) : Option Protocol :=
  match multistream_select.Protocol.try_from p with
  | Except.ok q => some (Protocol.from_inner q)
  | Except.error _ => none

/-- `ToProtocolsIter::to_protocols_iter` of `core/src/upgrade.rs`
(lines 242-246): the enumerated protocol infos, filtered through
`filter_non_utf8_protocols`. -/
def to_protocols_iter (protocol_info : List RawName) : List Protocol :=
  protocol_info.filterMap filter_non_utf8_protocols

/-- `to_protocols_iter` together with the diagnostics the filter emits: the
second component lists the malformed names for which the `log::warn!` in
`filter_non_utf8_protocols` fires. -/
def to_protocols_iter_logged : List RawName → List Protocol × List RawName
  | [] => ([], [])
  | p :: rest =>
    let r := to_protocols_iter_logged rest
    match filter_non_utf8_protocols p with
    | some q => (q :: r.1, r.2)
    | none => (r.1, p :: r.2)

/-- Spec-side well-formedness of a raw protocol name, following the spec
words: valid UTF-8, starts with a forward slash, at most 140 bytes. -/
def RawName.wellFormed : RawName → Bool
  | RawName.utf8 s => decide (s.data.head? = some '/' ∧ s.utf8ByteSize ≤ 140)
  | RawName.nonUtf8 => false

/-- The protocol a well-formed raw name denotes. -/
def rawToProtocol : RawName → Protocol
  | RawName.utf8 s => Protocol.from_inner { name := s }
  | RawName.nonUtf8 => Protocol.from_inner { name := "" }

/-- A '/'-prefixed name of UTF-8 byte length exactly 140. -/
def name140 : String := String.mk (List.cons '/' (List.replicate 139 'a'))

/-- A '/'-prefixed name of UTF-8 byte length exactly 141. -/
def name141 : String := String.mk (List.cons '/' (List.replicate 140 'a'))

deriving instance DecidableEq for Except

/-- `std::task::Poll`. -/
inductive Poll (α : Type) where
  | ready (a : α)
  | pending
  deriving DecidableEq, Repr

/-- Modelled from the spec: the subset of the WebRTC transport's `Error`
enum (its `error.rs` is not among the embedded sources) that the muxer
adapter produces — `WebRTC` wraps a peer-connection library error
(represented by its message) and `InternalError` carries a diagnostic
string. -/
inductive Error where
  | WebRTC (e : String)
  | InternalError (msg : String)
  deriving DecidableEq, Repr

/-- A detached data channel, identified opaquely. -/
abbrev DetachedDataChannel := Nat

/-- Model of the `futures::channel::mpsc` bounded queue of detached data
channels used as `incoming_data_channels_rx`: a FIFO buffer, a closed flag
(set by `Receiver::close`), and the capacity passed to `mpsc::channel`.
`try_send` fails when the queue is full or closed; `poll_next` drains
buffered items first and yields `none` only once the queue is both closed
and drained; `close` stops further sends but keeps buffered items
deliverable. -/
structure Chan where
  buf : List DetachedDataChannel
  closed : Bool
  cap : Nat
  deriving DecidableEq, Repr

/-- `Sender::try_send`: enqueue unless the queue is full or closed; the
boolean reports success. -/
def Chan.try_send (c : Chan) (d : DetachedDataChannel) : Chan × Bool :=
  if c.closed || c.cap ≤ c.buf.length then (c, false)
  else ({ c with buf := c.buf ++ [d] }, true)

/-- `Receiver::poll_next`: deliver the oldest buffered item; on an empty
buffer, `ready none` when closed and `pending` otherwise. -/
def Chan.poll_next (c : Chan) : Chan × Poll (Option DetachedDataChannel) :=
  match c.buf with
  | d :: rest => ({ c with buf := rest }, Poll.ready (some d))
  | [] => if c.closed then (c, Poll.ready none) else (c, Poll.pending)

/-- `Receiver::close`: no further sends are accepted. -/
def Chan.close (c : Chan) : Chan :=
  { c with closed := true }

/-- The lifecycle of the future optionally stored in `outbound_fut` /
`close_fut` of `ConnectionInner`: `empty` models `None`; `inFlight` a stored
future that has not yet returned `Ready`; `completed` a stored future that
has already returned `Ready` (polling such an `async` block again panics in
Rust with "resumed after completion"). -/
inductive FutSlot where
  | empty
  | inFlight
  | completed
  deriving DecidableEq, Repr

/-- `Option::get_or_insert` as used on the future slots: on `empty` a
freshly created future is stored; otherwise the stored future is reused.
The boolean reports whether this call created and stored a new future. -/
def FutSlot.get_or_insert : FutSlot → FutSlot × Bool
  | FutSlot.empty => (FutSlot.inFlight, true)
  | s => (s, false)

/-- Outcome of one `poll_outbound` / `poll_close` call as the caller sees
it. `resumedAfterCompletion` models the panic Rust raises when an `async`
block that already returned `Ready` is polled again. -/
inductive SlotPoll (α : Type) where
  | ready (a : α)
  | pending
  | resumedAfterCompletion
  deriving DecidableEq, Repr

/-- Model of `PollDataChannel` (the Substream type of the adapter): the
detached data channel it wraps plus the read-buffer capacity applied to
it. -/
structure PollDataChannel where
  detached : DetachedDataChannel
  read_buf_cap : Option Nat
  deriving DecidableEq, Repr

/-- `PollDataChannel::new`. -/
def PollDataChannel.new (d : DetachedDataChannel) : PollDataChannel :=
  { detached := d, read_buf_cap := none }

/-- `PollDataChannel::set_read_buf_capacity`. -/
def PollDataChannel.set_read_buf_capacity (ch : PollDataChannel) (cap : Nat) :
    PollDataChannel :=
  { ch with read_buf_cap := some cap }

/-- The substream construction shared by `poll_inbound` and
`poll_outbound`: `PollDataChannel::new(detached)` followed by
`set_read_buf_capacity` when a capacity hint is recorded. -/
def mkSubstream (d : DetachedDataChannel) (cap : Option Nat) : PollDataChannel :=
  match cap with
  | some c => (PollDataChannel.new d).set_read_buf_capacity c
  | none => PollDataChannel.new d

/-- `ConnectionInner` of `transports/webrtc/src/connection.rs`
(lines 58-74). -/
structure ConnectionInner where
  incoming_data_channels_rx : Chan
  read_buf_cap : Option Nat
  outbound_fut : FutSlot
  close_fut : FutSlot
  deriving DecidableEq, Repr

/-- `MAX_DATA_CHANNELS_IN_FLIGHT` of `transports/webrtc/src/connection.rs`
(line 46). -/
def MAX_DATA_CHANNELS_IN_FLIGHT : Nat := 10

/-- The state `Connection::new` builds (lines 78-92): an empty inbound
queue of capacity `MAX_DATA_CHANNELS_IN_FLIGHT`, no read-buffer hint, no
stored futures. -/
def Connection.new_inner : ConnectionInner :=
  { incoming_data_channels_rx := { buf := [], closed := false, cap := MAX_DATA_CHANNELS_IN_FLIGHT },
    read_buf_cap := none,
    outbound_fut := FutSlot.empty,
    close_fut := FutSlot.empty }

/-- `Connection::set_data_channels_read_buf_capacity` (lines 95-98). -/
def Connection.set_data_channels_read_buf_capacity (s : ConnectionInner) (cap : Nat) :
    ConnectionInner :=
  { s with read_buf_cap := some cap }

/-- The message of the `InternalError` that `poll_inbound` returns on a
closed, drained queue (lines 175-177). -/
def INBOUND_CLOSED_MSG : String := "incoming_data_channels_rx is closed (no messages left)"

/-- `Connection::poll_inbound` (lines 162-179): drain one element from the
inbound queue; a drained channel is wrapped in a `PollDataChannel` with the
read-buffer hint applied; a closed and drained queue yields
`InternalError`; otherwise `Pending`. -/
def Connection.poll_inbound (s : ConnectionInner) :
    ConnectionInner × Poll (Except Error PollDataChannel) :=
  match s.incoming_data_channels_rx.poll_next with
  | (c, Poll.ready (some detached)) =>
    ({ s with incoming_data_channels_rx := c },
      Poll.ready (Except.ok (mkSubstream detached s.read_buf_cap)))
  | (c, Poll.ready none) =>
    ({ s with incoming_data_channels_rx := c },
      Poll.ready (Except.error (Error.InternalError INBOUND_CLOSED_MSG)))
  | (c, Poll.pending) =>
    ({ s with incoming_data_channels_rx := c }, Poll.pending)

/-- `Connection::poll_outbound` (lines 185-225): `get_or_insert` the
outbound-open future into its slot, poll it, and on `Ready` wrap the result
in a substream (success) or return the error. The source never sets
`outbound_fut` back to `None`, so a future that has returned `Ready` stays
stored as `completed`, and polling it again is the
`resumedAfterCompletion` panic. `futResult` is the outcome the async
environment supplies for polling a live stored future; the returned boolean
is true when this call created a new future. -/
def Connection.poll_outbound (s : ConnectionInner)
    (futResult : Poll (Except Error DetachedDataChannel)) :
    ConnectionInner × SlotPoll (Except Error PollDataChannel) × Bool :=
  let gi := s.outbound_fut.get_or_insert
  match gi.1 with
  | FutSlot.completed => (s, SlotPoll.resumedAfterCompletion, gi.2)
  | _ =>
    match futResult with
    | Poll.pending =>
      ({ s with outbound_fut := FutSlot.inFlight }, SlotPoll.pending, gi.2)
    | Poll.ready (Except.ok detached) =>
      ({ s with outbound_fut := FutSlot.completed },
        SlotPoll.ready (Except.ok (mkSubstream detached s.read_buf_cap)), gi.2)
    | Poll.ready (Except.error e) =>
      ({ s with outbound_fut := FutSlot.completed },
        SlotPoll.ready (Except.error e), gi.2)

/-- `Connection::poll_close` (lines 227-244): `get_or_insert` the close
future (which runs `peer_conn.close()` and maps library errors through
`Error::WebRTC`), poll it; on success close the inbound queue. As in
`poll_outbound`, the slot is never set back to `None`. `futResult` is the
underlying `RTCPeerConnection::close` outcome supplied by the async
environment. -/
def Connection.poll_close (s : ConnectionInner)
    (futResult : Poll (Except String Unit)) :
    ConnectionInner × SlotPoll (Except Error Unit) × Bool :=
  let gi := s.close_fut.get_or_insert
  match gi.1 with
  | FutSlot.completed => (s, SlotPoll.resumedAfterCompletion, gi.2)
  | _ =>
    match futResult with
    | Poll.pending =>
      ({ s with close_fut := FutSlot.inFlight }, SlotPoll.pending, gi.2)
    | Poll.ready (Except.ok _) =>
      ({ s with
          close_fut := FutSlot.completed,
          incoming_data_channels_rx := s.incoming_data_channels_rx.close },
        SlotPoll.ready (Except.ok ()), gi.2)
    | Poll.ready (Except.error e) =>
      ({ s with close_fut := FutSlot.completed },
        SlotPoll.ready (Except.error (Error.WebRTC e)), gi.2)

/-- The body of the `on_open` callback installed by
`Connection::register_incoming_data_channels_handler` (lines 116-152) for
one detached incoming channel: `try_send` it onto the inbound queue; when
`try_send` fails the callback closes that channel. The boolean reports
whether the channel was closed because of overflow. -/
def on_incoming_data_channel (q : Chan) (detached : DetachedDataChannel) : Chan × Bool :=
  let r := q.try_send detached
  if r.2 then (r.1, false) else (r.1, true)

/-- Folding the incoming-channel callback over a burst of channels that all
reach open state before any `poll_inbound` call drains the queue; returns
the final queue and the list of channels the callback closed. -/
def feed_incoming : Chan → List DetachedDataChannel → Chan × List DetachedDataChannel
  | q, [] => (q, [])
  | q, d :: rest =>
    let r := on_incoming_data_channel q d
    let tailr := feed_incoming r.1 rest
    if r.2 then (tailr.1, d :: tailr.2) else (tailr.1, tailr.2)

/-- One observable step of the outbound-open future built in
`Connection::poll_outbound` (lines 188-212). -/
inductive OutboundStep where
  | acquirePeerConnLock
  | createDataChannel (label : String) (options : Option Nat)
  | releasePeerConnLock
  | registerOpenHandler
  | awaitOneshot
  deriving DecidableEq, Repr

/-- Environment outcomes the outbound-open future depends on: the result of
`create_data_channel` (a library error message, or a channel), and what the
one-shot receiver observes (`none` models the sender having been dropped
before signalling). -/
structure OutboundEnv where
  createResult : Except String DetachedDataChannel
  oneshotResult : Option DetachedDataChannel
  deriving DecidableEq, Repr

/-- `futures::channel::oneshot::Canceled` rendered by `to_string()`. -/
def ONESHOT_CANCELED_MSG : String := "oneshot canceled"

/-- The `async move` block stored in `outbound_fut` by `poll_outbound`
(lines 188-212), as the ordered list of steps it performs together with its
result: acquire the async peer-connection lock, create a data channel with
label "data" and default options (mapping a library failure through
`Error::WebRTC` and returning early), release the lock, register the
open-handler bridged through a one-shot, and await the one-shot (a dropped
sender becomes `Error::InternalError`). -/
def outbound_open_future (env : OutboundEnv) :
    List OutboundStep × Except Error DetachedDataChannel :=
  match env.createResult with
  | Except.error e =>
    ([OutboundStep.acquirePeerConnLock, OutboundStep.createDataChannel "data" none],
      Except.error (Error.WebRTC e))
  | Except.ok _ =>
    ([OutboundStep.acquirePeerConnLock, OutboundStep.createDataChannel "data" none,
        OutboundStep.releasePeerConnLock, OutboundStep.registerOpenHandler,
        OutboundStep.awaitOneshot],
      match env.oneshotResult with
      | some detached => Except.ok detached
      | none => Except.error (Error.InternalError ONESHOT_CANCELED_MSG))

/-- Iterated `poll_inbound`: the state after `n` consecutive calls. -/
def pollInboundIter (s : ConnectionInner) : Nat → ConnectionInner
  | 0 => s
  | n + 1 => (Connection.poll_inbound (pollInboundIter s n)).1

/-- Closed form of `Protocol.try_from_owned`. -/
theorem try_from_owned_eq (s : String) :
    Protocol.try_from_owned s =
      if s.data.head? = some '/' ∧ s.utf8ByteSize ≤ 140 then
        Except.ok { inner := { name := s } }
      else
        Except.error { err := multistream_select.ProtocolError.InvalidProtocol } := by
  by_cases h : s.data.head? = some '/' ∧ s.utf8ByteSize ≤ 140
  · simp [Protocol.try_from_owned, multistream_select.Protocol.try_from_owned,
      MAX_PROTOCOL_LEN, h]
  · simp [Protocol.try_from_owned, multistream_select.Protocol.try_from_owned,
      MAX_PROTOCOL_LEN, h]

set_option maxRecDepth 4000 in
/-- C1: for every string `s`, `Protocol::try_from_owned(s)` returns `Ok` iff
`s` starts with a forward slash and its byte length is at most 140; a name
of length exactly 140 is accepted, and one of length 141 is rejected with
`InvalidProtocol`. -/
theorem C1_try_from_owned_ok_iff :
    (∀ s : String,
      (∃ p, Protocol.try_from_owned s = Except.ok p) ↔
        (s.data.head? = some '/' ∧ s.utf8ByteSize ≤ 140))
    ∧ name140.utf8ByteSize = 140
    ∧ Protocol.try_from_owned name140 = Except.ok { inner := { name := name140 } }
    ∧ name141.utf8ByteSize = 141
    ∧ Protocol.try_from_owned name141 =
        Except.error { err := multistream_select.ProtocolError.InvalidProtocol } := by
  refine ⟨fun s => ?_, by decide, by decide, by decide, by decide⟩
  rw [try_from_owned_eq s]
  by_cases h : s.data.head? = some '/' ∧ s.utf8ByteSize ≤ 140
  · simp [h]
  · simp [h]

/-- C1 witness: the universal part applied at a concrete string. -/
theorem C1_try_from_owned_ok_iff_witness :
    (∃ p, Protocol.try_from_owned "/x" = Except.ok p) ↔
      (("/x" : String).data.head? = some '/' ∧ ("/x" : String).utf8ByteSize ≤ 140) :=
  C1_try_from_owned_ok_iff.1 "/x"

/-- `filter_non_utf8_protocols` keeps exactly the well-formed names. -/
theorem filter_non_utf8_protocols_eq (p : RawName) :
    filter_non_utf8_protocols p =
      if p.wellFormed then some (rawToProtocol p) else none := by
  cases p with
  | utf8 s =>
    by_cases h : s.data.head? = some '/' ∧ s.utf8ByteSize ≤ 140
    · simp [filter_non_utf8_protocols, multistream_select.Protocol.try_from,
        multistream_select.Protocol.try_from_owned, MAX_PROTOCOL_LEN,
        RawName.wellFormed, rawToProtocol, Protocol.from_inner, h]
    · simp [filter_non_utf8_protocols, multistream_select.Protocol.try_from,
        multistream_select.Protocol.try_from_owned, MAX_PROTOCOL_LEN,
        RawName.wellFormed, h]
  | nonUtf8 => rfl

/-- The offered protocol list is the well-formed names in enumerator
order. -/
theorem to_protocols_iter_eq_filter (l : List RawName) :
    to_protocols_iter l = (l.filter RawName.wellFormed).map rawToProtocol := by
  induction l with
  | nil => rfl
  | cons p rest ih =>
    simp only [to_protocols_iter, List.filterMap_cons, List.filter_cons] at ih ⊢
    rw [filter_non_utf8_protocols_eq]
    cases hp : p.wellFormed <;> simp [hp, ih]

/-- The logged variant agrees with `to_protocols_iter` and records exactly
the malformed names as diagnostics. -/
theorem to_protocols_iter_logged_spec (l : List RawName) :
    (to_protocols_iter_logged l).1 = to_protocols_iter l
    ∧ (to_protocols_iter_logged l).2 = l.filter (fun p => !p.wellFormed) := by
  induction l with
  | nil => exact ⟨rfl, rfl⟩
  | cons p rest ih =>
    simp only [to_protocols_iter_logged, to_protocols_iter, List.filterMap_cons,
      List.filter_cons]
    rw [filter_non_utf8_protocols_eq]
    cases hp : p.wellFormed <;>
      simp [hp, ih.1, ih.2, to_protocols_iter]

/-- C6: `to_protocols_iter` yields exactly the well-formed names, in
enumerator order, each malformed name being dropped with a diagnostic; in
particular the enumeration [/ok, bad, /also] yields [/ok, /also] with one
diagnostic for bad. -/
theorem C6_to_protocols_iter_filters_malformed :
    (∀ l : List RawName,
      to_protocols_iter l = (l.filter RawName.wellFormed).map rawToProtocol
      ∧ (to_protocols_iter_logged l).1 = to_protocols_iter l
      ∧ (to_protocols_iter_logged l).2 = l.filter (fun p => !p.wellFormed))
    ∧ to_protocols_iter_logged
        [RawName.utf8 "/ok", RawName.utf8 "bad", RawName.utf8 "/also"]
        = ([Protocol.from_inner { name := "/ok" }, Protocol.from_inner { name := "/also" }],
          [RawName.utf8 "bad"]) := by
  refine ⟨fun l => ⟨to_protocols_iter_eq_filter l, (to_protocols_iter_logged_spec l).1,
    (to_protocols_iter_logged_spec l).2⟩, by decide⟩

/-- C6 witness: the universal part applied at the concrete enumeration from
the claim. -/
theorem C6_to_protocols_iter_filters_malformed_witness :
    to_protocols_iter [RawName.utf8 "/ok", RawName.utf8 "bad", RawName.utf8 "/also"]
      = (([RawName.utf8 "/ok", RawName.utf8 "bad", RawName.utf8 "/also"].filter
          RawName.wellFormed).map rawToProtocol) :=
  (C6_to_protocols_iter_filters_malformed.1
    [RawName.utf8 "/ok", RawName.utf8 "bad", RawName.utf8 "/also"]).1

/-- One `poll_inbound` call always removes (at most) the queue head and
touches nothing else of the inbound queue or the read-buffer hint. -/
theorem poll_inbound_incoming (s : ConnectionInner) :
    ((Connection.poll_inbound s).1).incoming_data_channels_rx.buf
        = s.incoming_data_channels_rx.buf.tail
    ∧ ((Connection.poll_inbound s).1).incoming_data_channels_rx.closed
        = s.incoming_data_channels_rx.closed
    ∧ ((Connection.poll_inbound s).1).read_buf_cap = s.read_buf_cap := by
  rcases s with ⟨⟨buf, closed, cap⟩, rbc, ofut, cfut⟩
  cases buf <;> cases closed <;>
    simp [Connection.poll_inbound, Chan.poll_next]

/-- On a closed, drained queue `poll_inbound` yields the internal error. -/
theorem poll_inbound_closed_empty (t : ConnectionInner)
    (hb : t.incoming_data_channels_rx.buf = [])
    (hc : t.incoming_data_channels_rx.closed = true) :
    (Connection.poll_inbound t).2
      = Poll.ready (Except.error (Error.InternalError INBOUND_CLOSED_MSG)) := by
  rcases t with ⟨⟨buf, closed, cap⟩, rbc, ofut, cfut⟩
  simp only at hb hc
  subst hb
  subst hc
  simp [Connection.poll_inbound, Chan.poll_next]

/-- C5: every `poll_inbound` call has exactly one of three outcomes:
`Ready(Ok(substream))` draining the queue head, `Ready(Err(InternalError))`
when the queue is closed with nothing buffered, and `Pending` otherwise. -/
theorem C5_poll_inbound_trichotomy (s : ConnectionInner) :
    (∃ d, s.incoming_data_channels_rx.buf.head? = some d
      ∧ (Connection.poll_inbound s).2
          = Poll.ready (Except.ok (mkSubstream d s.read_buf_cap))
      ∧ (Connection.poll_inbound s).1.incoming_data_channels_rx.buf
          = s.incoming_data_channels_rx.buf.tail)
    ∨ (s.incoming_data_channels_rx.buf = []
      ∧ s.incoming_data_channels_rx.closed = true
      ∧ (Connection.poll_inbound s).2
          = Poll.ready (Except.error (Error.InternalError INBOUND_CLOSED_MSG)))
    ∨ (s.incoming_data_channels_rx.buf = []
      ∧ s.incoming_data_channels_rx.closed = false
      ∧ (Connection.poll_inbound s).2 = Poll.pending) := by
  rcases s with ⟨⟨buf, closed, cap⟩, rbc, ofut, cfut⟩
  cases buf with
  | nil =>
    cases closed
    · exact Or.inr (Or.inr ⟨rfl, rfl, by simp [Connection.poll_inbound, Chan.poll_next]⟩)
    · exact Or.inr (Or.inl ⟨rfl, rfl, by simp [Connection.poll_inbound, Chan.poll_next]⟩)
  | cons d rest =>
    exact Or.inl ⟨d, rfl, by simp [Connection.poll_inbound, Chan.poll_next],
      by simp [Connection.poll_inbound, Chan.poll_next]⟩

/-- C5 witness: the trichotomy applied at the fresh connection state. -/
theorem C5_poll_inbound_trichotomy_witness :
    (∃ d, Connection.new_inner.incoming_data_channels_rx.buf.head? = some d
      ∧ (Connection.poll_inbound Connection.new_inner).2
          = Poll.ready (Except.ok (mkSubstream d Connection.new_inner.read_buf_cap))
      ∧ (Connection.poll_inbound Connection.new_inner).1.incoming_data_channels_rx.buf
          = Connection.new_inner.incoming_data_channels_rx.buf.tail)
    ∨ (Connection.new_inner.incoming_data_channels_rx.buf = []
      ∧ Connection.new_inner.incoming_data_channels_rx.closed = true
      ∧ (Connection.poll_inbound Connection.new_inner).2
          = Poll.ready (Except.error (Error.InternalError INBOUND_CLOSED_MSG)))
    ∨ (Connection.new_inner.incoming_data_channels_rx.buf = []
      ∧ Connection.new_inner.incoming_data_channels_rx.closed = false
      ∧ (Connection.poll_inbound Connection.new_inner).2 = Poll.pending) :=
  C5_poll_inbound_trichotomy Connection.new_inner

/-- C7: the inbound queue has capacity exactly 10
(`MAX_DATA_CHANNELS_IN_FLIGHT`); feeding 11 undrained incoming channels
closes exactly the 11th while the first 10 stay buffered; the callback never
closes the queue itself, so overflow is not surfaced as a `poll_inbound`
error and the buffered channels remain deliverable. -/
theorem C7_inbound_queue_capacity :
    MAX_DATA_CHANNELS_IN_FLIGHT = 10
    ∧ Connection.new_inner.incoming_data_channels_rx.cap = 10
    ∧ (∀ q d, ((on_incoming_data_channel q d).1).closed = q.closed)
    ∧ (feed_incoming Connection.new_inner.incoming_data_channels_rx
        [0, 1, 2, 3, 4, 5, 6, 7, 8, 9, 10]).2 = [10]
    ∧ (feed_incoming Connection.new_inner.incoming_data_channels_rx
        [0, 1, 2, 3, 4, 5, 6, 7, 8, 9, 10]).1.buf
        = [0, 1, 2, 3, 4, 5, 6, 7, 8, 9]
    ∧ (Connection.poll_inbound
        { Connection.new_inner with
            incoming_data_channels_rx :=
              (feed_incoming Connection.new_inner.incoming_data_channels_rx
                [0, 1, 2, 3, 4, 5, 6, 7, 8, 9, 10]).1 }).2
        = Poll.ready (Except.ok (mkSubstream 0 none)) := by
  refine ⟨rfl, rfl, fun q d => ?_, by decide, by decide, by decide⟩
  rcases q with ⟨buf, closed, cap⟩
  cases closed <;> by_cases h : cap ≤ buf.length <;>
    simp [on_incoming_data_channel, Chan.try_send, h]

/-- C7 witness: the universal part applied at a concrete full queue. -/
theorem C7_inbound_queue_capacity_witness :
    ((on_incoming_data_channel { buf := [0, 1], closed := false, cap := 2 } 9).1).closed
      = ({ buf := [0, 1], closed := false, cap := 2 } : Chan).closed :=
  C7_inbound_queue_capacity.2.2.1 { buf := [0, 1], closed := false, cap := 2 } 9

/-- C8: the slots hold at most one future: a call creates a new future iff
no future is stored, and a second caller that arrives while the stored
future is pending observes `Pending` with the same single future still in
place. -/
theorem C8_single_future_slots (s : ConnectionInner)
    (envO : Poll (Except Error DetachedDataChannel))
    (envC : Poll (Except String Unit)) :
    ((Connection.poll_outbound s envO).2.2 = true ↔ s.outbound_fut = FutSlot.empty)
    ∧ ((Connection.poll_close s envC).2.2 = true ↔ s.close_fut = FutSlot.empty)
    ∧ Connection.poll_outbound { s with outbound_fut := FutSlot.inFlight } Poll.pending
        = ({ s with outbound_fut := FutSlot.inFlight }, SlotPoll.pending, false)
    ∧ Connection.poll_close { s with close_fut := FutSlot.inFlight } Poll.pending
        = ({ s with close_fut := FutSlot.inFlight }, SlotPoll.pending, false) := by
  rcases s with ⟨inc, rbc, ofut, cfut⟩
  refine ⟨?_, ?_, rfl, rfl⟩
  · cases ofut <;>
      rcases envO with (⟨(_ | _)⟩ | _) <;>
        simp [Connection.poll_outbound, FutSlot.get_or_insert]
  · cases cfut <;>
      rcases envC with (⟨(_ | _)⟩ | _) <;>
        simp [Connection.poll_close, FutSlot.get_or_insert]

/-- C8 witness: applied at the fresh connection state. -/
theorem C8_single_future_slots_witness :
    ((Connection.poll_outbound Connection.new_inner Poll.pending).2.2 = true
        ↔ Connection.new_inner.outbound_fut = FutSlot.empty)
    ∧ ((Connection.poll_close Connection.new_inner Poll.pending).2.2 = true
        ↔ Connection.new_inner.close_fut = FutSlot.empty)
    ∧ Connection.poll_outbound
        { Connection.new_inner with outbound_fut := FutSlot.inFlight } Poll.pending
        = ({ Connection.new_inner with outbound_fut := FutSlot.inFlight },
          SlotPoll.pending, false)
    ∧ Connection.poll_close
        { Connection.new_inner with close_fut := FutSlot.inFlight } Poll.pending
        = ({ Connection.new_inner with close_fut := FutSlot.inFlight },
          SlotPoll.pending, false) :=
  C8_single_future_slots Connection.new_inner Poll.pending Poll.pending

/-- C9: the outbound-open future acquires the peer-connection lock, creates
a data channel labelled "data" with default options, releases the lock,
registers the open handler bridged by a one-shot, and awaits the one-shot —
in that order; a library failure is returned as `WebRTC(e)` and a dropped
one-shot sender as `InternalError`. -/
theorem C9_outbound_future_script (dc d : DetachedDataChannel) (e : String)
    (o : Option DetachedDataChannel) :
    outbound_open_future { createResult := Except.ok dc, oneshotResult := some d }
      = ([OutboundStep.acquirePeerConnLock, OutboundStep.createDataChannel "data" none,
          OutboundStep.releasePeerConnLock, OutboundStep.registerOpenHandler,
          OutboundStep.awaitOneshot], Except.ok d)
    ∧ outbound_open_future { createResult := Except.ok dc, oneshotResult := none }
      = ([OutboundStep.acquirePeerConnLock, OutboundStep.createDataChannel "data" none,
          OutboundStep.releasePeerConnLock, OutboundStep.registerOpenHandler,
          OutboundStep.awaitOneshot],
        Except.error (Error.InternalError ONESHOT_CANCELED_MSG))
    ∧ outbound_open_future { createResult := Except.error e, oneshotResult := o }
      = ([OutboundStep.acquirePeerConnLock, OutboundStep.createDataChannel "data" none],
        Except.error (Error.WebRTC e)) :=
  ⟨rfl, rfl, rfl⟩

/-- C9 witness: the script at concrete environment outcomes. -/
theorem C9_outbound_future_script_witness :
    outbound_open_future { createResult := Except.ok 3, oneshotResult := some 4 }
      = ([OutboundStep.acquirePeerConnLock, OutboundStep.createDataChannel "data" none,
          OutboundStep.releasePeerConnLock, OutboundStep.registerOpenHandler,
          OutboundStep.awaitOneshot], Except.ok 4) :=
  (C9_outbound_future_script 3 4 "err" none).1

/-- A first successful `poll_close` closes the inbound queue and leaves the
close future stored as completed. -/
theorem poll_close_ok_state (s : ConnectionInner) (h : s.close_fut ≠ FutSlot.completed) :
    (Connection.poll_close s (Poll.ready (Except.ok ()))).1
        = { s with
            close_fut := FutSlot.completed,
            incoming_data_channels_rx := s.incoming_data_channels_rx.close }
    ∧ (Connection.poll_close s (Poll.ready (Except.ok ()))).2.1
        = SlotPoll.ready (Except.ok ()) := by
  cases hc : s.close_fut with
  | completed => exact absurd hc h
  | empty => exact ⟨by simp [Connection.poll_close, FutSlot.get_or_insert, hc],
      by simp [Connection.poll_close, FutSlot.get_or_insert, hc]⟩
  | inFlight => exact ⟨by simp [Connection.poll_close, FutSlot.get_or_insert, hc],
      by simp [Connection.poll_close, FutSlot.get_or_insert, hc]⟩

/-- C2 counterexample: after the outbound-open future completes
successfully, the stored future is not cleared (`outbound_fut` is not
`None`), and the next `poll_outbound` call re-polls the completed future —
the "resumed after completion" panic — creating no fresh outbound open. -/
theorem C2_counterexample :
    ((Connection.poll_outbound Connection.new_inner (Poll.ready (Except.ok 7))).1).outbound_fut
        ≠ FutSlot.empty
    ∧ (Connection.poll_outbound
        (Connection.poll_outbound Connection.new_inner (Poll.ready (Except.ok 7))).1
        Poll.pending).2.1 = SlotPoll.resumedAfterCompletion
    ∧ (Connection.poll_outbound
        (Connection.poll_outbound Connection.new_inner (Poll.ready (Except.ok 7))).1
        Poll.pending).2.2 = false := by
  refine ⟨by decide, by decide, by decide⟩

/-- C2 (amended): when the pending outbound-open future completes (success
or error), `poll_outbound` returns the wrapped result but leaves the
completed future stored in `outbound_fut` (the slot is never cleared); a
subsequent `poll_outbound` re-polls the completed future — panicking with
"resumed after completion" — instead of starting a fresh outbound open. -/
theorem C2_outbound_fut_retained (s s2 : ConnectionInner)
    (d : DetachedDataChannel) (e : Error)
    (env2 : Poll (Except Error DetachedDataChannel))
    (h : s.outbound_fut ≠ FutSlot.completed)
    (h2 : s2.outbound_fut = FutSlot.completed) :
    (Connection.poll_outbound s (Poll.ready (Except.ok d))).1.outbound_fut
        = FutSlot.completed
    ∧ (Connection.poll_outbound s (Poll.ready (Except.ok d))).2.1
        = SlotPoll.ready (Except.ok (mkSubstream d s.read_buf_cap))
    ∧ (Connection.poll_outbound s (Poll.ready (Except.error e))).1.outbound_fut
        = FutSlot.completed
    ∧ (Connection.poll_outbound s (Poll.ready (Except.error e))).2.1
        = SlotPoll.ready (Except.error e)
    ∧ Connection.poll_outbound s2 env2 = (s2, SlotPoll.resumedAfterCompletion, false) := by
  cases hc : s.outbound_fut with
  | completed => exact absurd hc h
  | empty =>
    refine ⟨?_, ?_, ?_, ?_, ?_⟩ <;>
      simp [Connection.poll_outbound, FutSlot.get_or_insert, hc, h2]
  | inFlight =>
    refine ⟨?_, ?_, ?_, ?_, ?_⟩ <;>
      simp [Connection.poll_outbound, FutSlot.get_or_insert, hc, h2]

/-- C2 witness: the amended statement at concrete inputs. -/
theorem C2_outbound_fut_retained_witness :
    Connection.new_inner.outbound_fut ≠ FutSlot.completed
    ∧ ({ Connection.new_inner with outbound_fut := FutSlot.completed }
          : ConnectionInner).outbound_fut = FutSlot.completed
    ∧ (Connection.poll_outbound Connection.new_inner (Poll.ready (Except.ok 7))).1.outbound_fut
        = FutSlot.completed
    ∧ Connection.poll_outbound
        { Connection.new_inner with outbound_fut := FutSlot.completed } Poll.pending
        = ({ Connection.new_inner with outbound_fut := FutSlot.completed },
          SlotPoll.resumedAfterCompletion, false) :=
  ⟨by decide, by decide,
    (C2_outbound_fut_retained Connection.new_inner
      { Connection.new_inner with outbound_fut := FutSlot.completed }
      7 (Error.WebRTC "boom") Poll.pending (by decide) (by decide)).1,
    (C2_outbound_fut_retained Connection.new_inner
      { Connection.new_inner with outbound_fut := FutSlot.completed }
      7 (Error.WebRTC "boom") Poll.pending (by decide) (by decide)).2.2.2.2⟩

/-- C3 counterexample: after a first `poll_close` has returned `Ready(Ok)`,
a second `poll_close` neither returns `Ready(Ok(()))` again nor is a no-op
returning `Pending`: it re-polls the completed close future (the "resumed
after completion" panic); and after a `poll_close` that returns
`Ready(Err(..))` the stored close future has not been cleared. -/
theorem C3_counterexample :
    (Connection.poll_close
        (Connection.poll_close Connection.new_inner (Poll.ready (Except.ok ()))).1
        Poll.pending).2.1 = SlotPoll.resumedAfterCompletion
    ∧ (Connection.poll_close
        (Connection.poll_close Connection.new_inner (Poll.ready (Except.ok ()))).1
        Poll.pending).2.1 ≠ SlotPoll.ready (Except.ok ())
    ∧ (Connection.poll_close
        (Connection.poll_close Connection.new_inner (Poll.ready (Except.ok ()))).1
        Poll.pending).2.1 ≠ SlotPoll.pending
    ∧ (Connection.poll_close Connection.new_inner
        (Poll.ready (Except.error "boom"))).1.close_fut ≠ FutSlot.empty := by
  refine ⟨by decide, by decide, by decide, by decide⟩

/-- C3 (amended): after `poll_close` returns `Ready` — success or error —
the close future remains stored as completed (it is never cleared); a
subsequent `poll_close` re-polls the completed future, panicking with
"resumed after completion", rather than returning `Ready(Ok(()))` again or
starting a new close attempt. -/
theorem C3_close_fut_retained (s s2 : ConnectionInner)
    (r : Except String Unit) (env2 : Poll (Except String Unit))
    (h : s.close_fut ≠ FutSlot.completed)
    (h2 : s2.close_fut = FutSlot.completed) :
    (Connection.poll_close s (Poll.ready r)).1.close_fut = FutSlot.completed
    ∧ Connection.poll_close s2 env2 = (s2, SlotPoll.resumedAfterCompletion, false) := by
  cases hc : s.close_fut with
  | completed => exact absurd hc h
  | empty =>
    refine ⟨?_, ?_⟩ <;>
      cases r <;> simp [Connection.poll_close, FutSlot.get_or_insert, hc, h2]
  | inFlight =>
    refine ⟨?_, ?_⟩ <;>
      cases r <;> simp [Connection.poll_close, FutSlot.get_or_insert, hc, h2]

/-- C3 witness: the amended statement at concrete inputs. -/
theorem C3_close_fut_retained_witness :
    Connection.new_inner.close_fut ≠ FutSlot.completed
    ∧ ({ Connection.new_inner with close_fut := FutSlot.completed }
          : ConnectionInner).close_fut = FutSlot.completed
    ∧ (Connection.poll_close Connection.new_inner (Poll.ready (Except.ok ()))).1.close_fut
        = FutSlot.completed
    ∧ Connection.poll_close
        { Connection.new_inner with close_fut := FutSlot.completed } Poll.pending
        = ({ Connection.new_inner with close_fut := FutSlot.completed },
          SlotPoll.resumedAfterCompletion, false) :=
  ⟨by decide, by decide,
    (C3_close_fut_retained Connection.new_inner
      { Connection.new_inner with close_fut := FutSlot.completed }
      (Except.ok ()) Poll.pending (by decide) (by decide)).1,
    (C3_close_fut_retained Connection.new_inner
      { Connection.new_inner with close_fut := FutSlot.completed }
      (Except.ok ()) Poll.pending (by decide) (by decide)).2⟩

/-- Iterated `poll_inbound` drains the buffer front-first and preserves the
closed flag and the read-buffer hint. -/
theorem pollInboundIter_spec (s : ConnectionInner) (n : Nat) :
    (pollInboundIter s n).incoming_data_channels_rx.buf
        = s.incoming_data_channels_rx.buf.drop n
    ∧ (pollInboundIter s n).incoming_data_channels_rx.closed
        = s.incoming_data_channels_rx.closed
    ∧ (pollInboundIter s n).read_buf_cap = s.read_buf_cap := by
  induction n with
  | zero => exact ⟨by simp [pollInboundIter], rfl, rfl⟩
  | succ n ih =>
    have h := poll_inbound_incoming (pollInboundIter s n)
    refine ⟨?_, ?_, ?_⟩
    · show ((Connection.poll_inbound (pollInboundIter s n)).1).incoming_data_channels_rx.buf = _
      rw [h.1, ih.1, List.tail_drop]
    · show ((Connection.poll_inbound (pollInboundIter s n)).1).incoming_data_channels_rx.closed = _
      rw [h.2.1, ih.2.1]
    · show ((Connection.poll_inbound (pollInboundIter s n)).1).read_buf_cap = _
      rw [h.2.2, ih.2.2]

/-- C4: after `poll_close` resolves with `Ok(())`, the inbound queue
accepts no new sends, and once the buffered items are drained — after at
most `buf.length` further `poll_inbound` calls — every subsequent
`poll_inbound` returns `Ready(Err(InternalError))`. -/
theorem C4_close_then_inbound_errors (s s2 : ConnectionInner)
    (h : s.close_fut ≠ FutSlot.completed)
    (hs : s2 = (Connection.poll_close s (Poll.ready (Except.ok ()))).1) :
    (∀ d, (s2.incoming_data_channels_rx.try_send d).2 = false
      ∧ (s2.incoming_data_channels_rx.try_send d).1 = s2.incoming_data_channels_rx)
    ∧ (∀ k, s2.incoming_data_channels_rx.buf.length ≤ k →
        (Connection.poll_inbound (pollInboundIter s2 k)).2
          = Poll.ready (Except.error (Error.InternalError INBOUND_CLOSED_MSG))) := by
  have hstate := (poll_close_ok_state s h).1
  have hclosed : s2.incoming_data_channels_rx.closed = true := by
    rw [hs, hstate]; rfl
  constructor
  · intro d
    rcases hq : s2.incoming_data_channels_rx with ⟨buf, closed, cap⟩
    rw [hq] at hclosed
    simp only at hclosed
    subst hclosed
    simp [Chan.try_send]
  · intro k hk
    have hspec := pollInboundIter_spec s2 k
    apply poll_inbound_closed_empty
    · rw [hspec.1]
      exact List.drop_eq_nil_of_le hk
    · rw [hspec.2.1, hclosed]

/-- C4 witness: applied after closing a connection with two buffered
inbound channels. -/
theorem C4_close_then_inbound_errors_witness :
    ({ Connection.new_inner with
        incoming_data_channels_rx := { buf := [4, 5], closed := false, cap := 10 } }
      : ConnectionInner).close_fut ≠ FutSlot.completed
    ∧ ((Connection.poll_close
          { Connection.new_inner with
              incoming_data_channels_rx := { buf := [4, 5], closed := false, cap := 10 } }
          (Poll.ready (Except.ok ()))).1.incoming_data_channels_rx.try_send 6).2 = false
    ∧ (Connection.poll_inbound
        (pollInboundIter
          (Connection.poll_close
            { Connection.new_inner with
                incoming_data_channels_rx := { buf := [4, 5], closed := false, cap := 10 } }
            (Poll.ready (Except.ok ()))).1 2)).2
        = Poll.ready (Except.error (Error.InternalError INBOUND_CLOSED_MSG)) :=
  ⟨by decide,
    ((C4_close_then_inbound_errors
      { Connection.new_inner with
          incoming_data_channels_rx := { buf := [4, 5], closed := false, cap := 10 } }
      _ (by decide) rfl).1 6).1,
    (C4_close_then_inbound_errors
      { Connection.new_inner with
          incoming_data_channels_rx := { buf := [4, 5], closed := false, cap := 10 } }
      _ (by decide) rfl).2 2 (by decide)⟩

/-- C10: when the close future resolves with a library error, `poll_close`
returns `Ready(Err(WebRTC(e)))` and leaves the inbound queue untouched (it
is closed only on the success path), so `poll_inbound` behaves exactly as
before the failed attempt. -/
theorem C10_failed_close_leaves_queue (s : ConnectionInner) (e : String)
    (h : s.close_fut ≠ FutSlot.completed) :
    (Connection.poll_close s (Poll.ready (Except.error e))).2.1
        = SlotPoll.ready (Except.error (Error.WebRTC e))
    ∧ (Connection.poll_close s (Poll.ready (Except.error e))).1.incoming_data_channels_rx
        = s.incoming_data_channels_rx
    ∧ (Connection.poll_close s (Poll.ready (Except.error e))).1.read_buf_cap
        = s.read_buf_cap
    ∧ (Connection.poll_inbound
          (Connection.poll_close s (Poll.ready (Except.error e))).1).2
        = (Connection.poll_inbound s).2
    ∧ (Connection.poll_inbound
          (Connection.poll_close s (Poll.ready (Except.error e))).1).1.incoming_data_channels_rx
        = (Connection.poll_inbound s).1.incoming_data_channels_rx := by
  rcases s with ⟨⟨buf, closed, cap⟩, rbc, ofut, cfut⟩
  cases cfut with
  | completed => exact absurd rfl h
  | empty =>
    refine ⟨?_, ?_, ?_, ?_, ?_⟩ <;>
      cases buf <;> cases closed <;>
        simp [Connection.poll_close, FutSlot.get_or_insert, Connection.poll_inbound,
          Chan.poll_next]
  | inFlight =>
    refine ⟨?_, ?_, ?_, ?_, ?_⟩ <;>
      cases buf <;> cases closed <;>
        simp [Connection.poll_close, FutSlot.get_or_insert, Connection.poll_inbound,
          Chan.poll_next]

/-- C10 witness: a failed close on a connection with a buffered inbound
channel leaves it deliverable. -/
theorem C10_failed_close_leaves_queue_witness :
    ({ Connection.new_inner with
        incoming_data_channels_rx := { buf := [4], closed := false, cap := 10 } }
      : ConnectionInner).close_fut ≠ FutSlot.completed
    ∧ (Connection.poll_close
        { Connection.new_inner with
            incoming_data_channels_rx := { buf := [4], closed := false, cap := 10 } }
        (Poll.ready (Except.error "boom"))).2.1
        = SlotPoll.ready (Except.error (Error.WebRTC "boom"))
    ∧ (Connection.poll_inbound
          (Connection.poll_close
            { Connection.new_inner with
                incoming_data_channels_rx := { buf := [4], closed := false, cap := 10 } }
            (Poll.ready (Except.error "boom"))).1).2
        = (Connection.poll_inbound
            { Connection.new_inner with
                incoming_data_channels_rx := { buf := [4], closed := false, cap := 10 } }).2 :=
  ⟨by decide,
    (C10_failed_close_leaves_queue
      { Connection.new_inner with
          incoming_data_channels_rx := { buf := [4], closed := false, cap := 10 } }
      "boom" (by decide)).1,
    (C10_failed_close_leaves_queue
      { Connection.new_inner with
          incoming_data_channels_rx := { buf := [4], closed := false, cap := 10 } }
      "boom" (by decide)).2.2.2.1⟩
